import Mathlib

/-!
Verification of the device-topology and command-submission core of the
compute-runtime repository.

The command-queue side (CommandBufferManager, reserveLinearStreamSize,
synchronizeByPollingForTaskCount) is embedded directly from
src/level_zero/core/source/cmdqueue/cmdqueue.cpp.  External collaborators
(memory manager, command stream receiver) are modelled as oracles: their
answers are explicit arguments, and the calls made to them are returned as
logs.  The device-tree and os-context implementation files are not present
in the source tree (only their unit tests are), so those parts are modelled
from the specification, as marked on each definition.
-/

/-- Result codes of the level-zero API used by this core (ze_result_t). -/
inductive ZeResult where
  | ZE_RESULT_SUCCESS
  | ZE_RESULT_NOT_READY
  | ZE_RESULT_ERROR_OUT_OF_DEVICE_MEMORY
  | ZE_RESULT_ERROR_UNINITIALIZED
deriving DecidableEq, Repr

/-- A graphics allocation: an identity plus the underlying buffer contents.
getUnderlyingBuffer and getUnderlyingBufferSize are modelled by the list and
its length. -/
structure GraphicsAllocation where
  allocationId : Nat
  underlyingBuffer : List Nat
deriving DecidableEq, Repr

/-- Allocation types relevant here (GraphicsAllocation::AllocationType). -/
inductive AllocationType where
  | COMMAND_BUFFER
  | OTHER
deriving DecidableEq, Repr

/-- The part of NEO::AllocationProperties that the command-buffer manager
fills in and that the claims talk about: the requested size and type. -/
structure AllocationProperties where
  size : Nat
  allocationType : AllocationType
deriving DecidableEq, Repr

/-- MemoryConstants::pageSize64k, the coarse allocation granularity. -/
def pageSize64k : Nat := 65536

/-- alignUp(x, a): round x up to the next multiple of a (a > 0). -/
def alignUp (x a : Nat) : Nat := ((x + a - 1) / a) * a

/-- memset(ptr, 0, getUnderlyingBufferSize()): zero-fill the whole
underlying buffer of an allocation. -/
def memset0 (g : GraphicsAllocation) : GraphicsAllocation :=
  { g with underlyingBuffer := List.replicate g.underlyingBuffer.length 0 }

/-- The BUFFER_ALLOCATION enum of CommandQueueImp::CommandBufferManager. -/
inductive BUFFER_ALLOCATION where
  | FIRST
  | SECOND
deriving DecidableEq, Repr

/-- State of CommandQueueImp::CommandBufferManager (cmdqueue.cpp): the two
buffer slots, the two recorded flush ids, and the buffer currently in use. -/
structure CommandBufferManager where
  bufferFirst : Option GraphicsAllocation
  bufferSecond : Option GraphicsAllocation
  flushIdFirst : Nat
  flushIdSecond : Nat
  bufferUse : BUFFER_ALLOCATION
deriving DecidableEq, Repr

/-- buffers[b]: the slot selected by a BUFFER_ALLOCATION value. -/
def CommandBufferManager.buffers (cbm : CommandBufferManager) :
    BUFFER_ALLOCATION → Option GraphicsAllocation
  | BUFFER_ALLOCATION.FIRST => cbm.bufferFirst
  | BUFFER_ALLOCATION.SECOND => cbm.bufferSecond

/-- flushId[b]: the recorded flush stamp of the selected buffer. -/
def CommandBufferManager.flushId (cbm : CommandBufferManager) :
    BUFFER_ALLOCATION → Nat
  | BUFFER_ALLOCATION.FIRST => cbm.flushIdFirst
  | BUFFER_ALLOCATION.SECOND => cbm.flushIdSecond

/-- Embedding of CommandQueueImp::CommandBufferManager::initialize
(cmdqueue.cpp lines 132-152).  The memory manager is external: r1 and r2 are
the results of its two allocateGraphicsMemoryWithProperties calls, in call
order.  Returns the ze_result_t, the updated manager state, and the list of
AllocationProperties passed to the allocator, in call order.  Both slots are
assigned before the null check, exactly as in the source; on success both
buffers are zero-filled and both flush ids are set to 0. -/
def CommandBufferManager.initialize (cbm : CommandBufferManager)
    (sizeRequested : Nat) (r1 r2 : Option GraphicsAllocation) :
    ZeResult × CommandBufferManager × List AllocationProperties :=
  let alignedSize := alignUp sizeRequested pageSize64k
  let properties : AllocationProperties :=
    { size := alignedSize, allocationType := AllocationType.COMMAND_BUFFER }
  let cbm1 := { cbm with bufferFirst := r1, bufferSecond := r2 }
  if r1 = none ∨ r2 = none then
    (ZeResult.ZE_RESULT_ERROR_OUT_OF_DEVICE_MEMORY, cbm1,
     [properties, properties])
  else
    (ZeResult.ZE_RESULT_SUCCESS,
     { cbm1 with
       bufferFirst := r1.map memset0
       bufferSecond := r2.map memset0
       flushIdFirst := 0
       flushIdSecond := 0 },
     [properties, properties])

/-- Embedding of CommandQueueImp::CommandBufferManager::destroy
(cmdqueue.cpp lines 154-163): each non-null slot is passed to
memoryManager->freeGraphicsMemory and then nulled, FIRST before SECOND.
Returns the updated manager and the allocations freed, in call order. -/
def CommandBufferManager.destroy (cbm : CommandBufferManager) :
    CommandBufferManager × List GraphicsAllocation :=
  ({ cbm with bufferFirst := none, bufferSecond := none },
   cbm.bufferFirst.toList ++ cbm.bufferSecond.toList)

/-- The toggle performed at the top of switchBuffers. -/
def otherBuffer : BUFFER_ALLOCATION → BUFFER_ALLOCATION
  | BUFFER_ALLOCATION.FIRST => BUFFER_ALLOCATION.SECOND
  | BUFFER_ALLOCATION.SECOND => BUFFER_ALLOCATION.FIRST

/-- Embedding of CommandQueueImp::CommandBufferManager::switchBuffers
(cmdqueue.cpp lines 165-177): toggle bufferUse; if the newly active buffer
has a non-zero recorded flush id, issue one csr->waitForFlushStamp call with
exactly that id.  Returns the updated manager and the list of flush stamps
waited for (empty or a singleton). -/
def CommandBufferManager.switchBuffers (cbm : CommandBufferManager) :
    CommandBufferManager × List Nat :=
  let cbm1 := { cbm with bufferUse := otherBuffer cbm.bufferUse }
  let completionId := cbm1.flushId cbm1.bufferUse
  if completionId ≠ 0 then (cbm1, [completionId]) else (cbm1, [])

/-- getCurrentBufferAllocation: the slot currently in use. -/
def CommandBufferManager.getCurrentBufferAllocation
    (cbm : CommandBufferManager) : Option GraphicsAllocation :=
  cbm.buffers cbm.bufferUse

/-- setCurrentFlushStamp(stamp): record stamp for the buffer in use. -/
def CommandBufferManager.setCurrentFlushStamp (cbm : CommandBufferManager)
    (stamp : Nat) : CommandBufferManager :=
  match cbm.bufferUse with
  | BUFFER_ALLOCATION.FIRST => { cbm with flushIdFirst := stamp }
  | BUFFER_ALLOCATION.SECOND => { cbm with flushIdSecond := stamp }

/-- Modelled from the spec: NEO::LinearStream
(shared/source/command_stream/linear_stream.h, not under src/) — the write
cursor over the active command buffer.  getAvailableSpace is the remaining
capacity, replaceBuffer points the stream at a new buffer of the given size
and resets the write cursor to its start, replaceGraphicsAllocation records
the backing allocation. -/
structure LinearStream where
  graphicsAllocation : Option GraphicsAllocation
  maxAvailableSize : Nat
  sizeUsed : Nat
deriving DecidableEq, Repr

/-- Remaining capacity of the stream. -/
def LinearStream.getAvailableSpace (s : LinearStream) : Nat :=
  s.maxAvailableSize - s.sizeUsed

/-- Modelled from the spec: replaceBuffer resets the write cursor to the
start of the new buffer and adopts the new buffer size. -/
def LinearStream.replaceBuffer (s : LinearStream) (bufferSize : Nat) :
    LinearStream :=
  { s with maxAvailableSize := bufferSize, sizeUsed := 0 }

/-- replaceGraphicsAllocation: record the backing allocation. -/
def LinearStream.replaceGraphicsAllocation (s : LinearStream)
    (a : Option GraphicsAllocation) : LinearStream :=
  { s with graphicsAllocation := a }

/-- The queue state that reserveLinearStreamSize touches: the buffer
manager and the command stream. -/
structure CommandQueueState where
  buffers : CommandBufferManager
  commandStream : LinearStream
deriving DecidableEq, Repr

/-- Embedding of CommandQueueImp::reserveLinearStreamSize (cmdqueue.cpp
lines 47-56).  defaultQueueCmdBufferSize, a constant of the queue, is passed
as a parameter.  Returns the updated queue state and the flush-stamp wait
calls issued to the csr during the switch. -/
def CommandQueueImp.reserveLinearStreamSize (q : CommandQueueState)
    (defaultQueueCmdBufferSize : Nat) (size : Nat) :
    CommandQueueState × List Nat :=
  if q.commandStream.getAvailableSpace < size then
    let switched := q.buffers.switchBuffers
    let nextBufferAllocation := switched.1.getCurrentBufferAllocation
    let stream1 :=
      (q.commandStream.replaceBuffer
        defaultQueueCmdBufferSize).replaceGraphicsAllocation
        nextBufferAllocation
    ({ buffers := switched.1, commandStream := stream1 }, switched.2)
  else
    (q, [])

/-- std::numeric_limits of uint64_t, max() — the infinite-timeout marker. -/
def UINT64_MAX : Nat := 2 ^ 64 - 1

/-- Modelled from the spec: NEO::TimeoutControls::maxTimeout (definition not
under src/), the timeout constant substituted when the timeout is disabled;
its exact value is irrelevant to the claims. -/
def TimeoutControls.maxTimeout : Int := 2 ^ 63 - 1

/-- static_cast of int64_t applied to a uint64_t value. -/
def toInt64 (t : Nat) : Int := (((t : Int) + 2 ^ 63) % 2 ^ 64) - 2 ^ 63

/-- The single csr->waitForCompletionWithTimeout call made by synchronize,
with the arguments the source passes. -/
structure WaitForCompletionCall where
  enableTimeout : Bool
  timeoutMicroseconds : Int
  taskCountToWait : Nat
deriving DecidableEq, Repr

/-- Embedding of CommandQueueImp::synchronizeByPollingForTaskCount
(cmdqueue.cpp lines 73-97).  The csr is external: tagAfterWait is the value
read through csr->getTagAddress() after the wait returns.  Returns the
ze_result_t and the wait call issued. -/
def CommandQueueImp.synchronizeByPollingForTaskCount (taskCount : Nat)
    (timeout : Nat) (tagAfterWait : Nat) : ZeResult × WaitForCompletionCall :=
  let taskCountToWait := taskCount
  let enableTimeout : Bool := timeout ≠ UINT64_MAX
  let timeoutMicroseconds : Int :=
    if timeout = UINT64_MAX then TimeoutControls.maxTimeout else toInt64 timeout
  let call : WaitForCompletionCall :=
    { enableTimeout := enableTimeout
      timeoutMicroseconds := timeoutMicroseconds
      taskCountToWait := taskCount }
  if tagAfterWait < taskCountToWait then
    (ZeResult.ZE_RESULT_NOT_READY, call)
  else
    (ZeResult.ZE_RESULT_SUCCESS, call)

/-- The operations a queue performs on its buffer manager after a
successful initialization, for the lifecycle claims. -/
inductive CbmOp where
  | opSwitchBuffers
  | opSetCurrentFlushStamp (stamp : Nat)
  | opDestroy
deriving DecidableEq, Repr

/-- One operation on the buffer manager, returning the allocations that the
operation passed to freeGraphicsMemory. -/
def CommandBufferManager.step (cbm : CommandBufferManager) :
    CbmOp → CommandBufferManager × List GraphicsAllocation
  | CbmOp.opSwitchBuffers => (cbm.switchBuffers.1, [])
  | CbmOp.opSetCurrentFlushStamp s => (cbm.setCurrentFlushStamp s, [])
  | CbmOp.opDestroy => cbm.destroy

/-- Run a sequence of operations, accumulating the free log. -/
def CommandBufferManager.run (cbm : CommandBufferManager) :
    List CbmOp → CommandBufferManager × List GraphicsAllocation
  | [] => (cbm, [])
  | op :: ops =>
    let s := cbm.step op
    let r := s.1.run ops
    (r.1, s.2 ++ r.2)

/-- How many of the two slots currently hold allocation a. -/
def CommandBufferManager.slotCount (cbm : CommandBufferManager)
    (a : GraphicsAllocation) : Nat :=
  (if cbm.bufferFirst = some a then 1 else 0) +
    (if cbm.bufferSecond = some a then 1 else 0)

/-- Modelled from the spec: the device implementation files
(shared/source/device/device.cpp, sub_device.cpp, root_device.cpp) are not
under src/ — only their unit tests are.  A device instance is addressed by
its root-device index and, for a sub-device, its sub-device index (spec
sections 3 and 4.2). -/
structure DeviceId where
  rootDeviceIndex : Nat
  subDeviceIndex : Option Nat
deriving DecidableEq, Repr

/-- A device is a sub-device exactly when it carries a sub-device index. -/
def DeviceId.isSubDevice (d : DeviceId) : Bool := d.subDeviceIndex.isSome

/-- The root device that a device instance belongs to (itself for roots). -/
def DeviceId.rootDevice (d : DeviceId) : DeviceId :=
  { rootDeviceIndex := d.rootDeviceIndex, subDeviceIndex := none }

/-- Modelled from the spec: the two per-device reference counters of every
device instance in the system, as functions of the device address. -/
structure RefCountState where
  apiRefCount : DeviceId → Nat
  internalRefCount : DeviceId → Nat

/-- Increment a counter map at one device. -/
def bumpAt (f : DeviceId → Nat) (d : DeviceId) : DeviceId → Nat :=
  fun x => if x = d then f x + 1 else f x

/-- Decrement a counter map at one device. -/
def dropAt (f : DeviceId → Nat) (d : DeviceId) : DeviceId → Nat :=
  fun x => if x = d then f x - 1 else f x

/-- Modelled from the spec: retainApi() on device D increments the
apiRefCount and internalRefCount of D itself, and, when D is a sub-device,
additionally increments the internalRefCount of its root (spec section
4.2, reference counting). -/
def RefCountState.retainApi (st : RefCountState) (d : DeviceId) :
    RefCountState :=
  let api1 := bumpAt st.apiRefCount d
  let int1 := bumpAt st.internalRefCount d
  if d.isSubDevice then
    { apiRefCount := api1, internalRefCount := bumpAt int1 d.rootDevice }
  else
    { apiRefCount := api1, internalRefCount := int1 }

/-- Modelled from the spec: releaseApi() mirrors retainApi() exactly,
decrementing the same counters. -/
def RefCountState.releaseApi (st : RefCountState) (d : DeviceId) :
    RefCountState :=
  let api1 := dropAt st.apiRefCount d
  let int1 := dropAt st.internalRefCount d
  if d.isSubDevice then
    { apiRefCount := api1, internalRefCount := dropAt int1 d.rootDevice }
  else
    { apiRefCount := api1, internalRefCount := dropAt st.internalRefCount d }

/-- Modelled from the spec: incRefInternal() on a root device increments
that root's own internalRefCount; on a sub-device it delegates entirely to
the root, leaving the sub-device's own counter untouched. -/
def RefCountState.incRefInternal (st : RefCountState) (d : DeviceId) :
    RefCountState :=
  if d.isSubDevice then
    { st with internalRefCount := bumpAt st.internalRefCount d.rootDevice }
  else
    { st with internalRefCount := bumpAt st.internalRefCount d }

/-- Modelled from the spec: decRefInternal() inverts incRefInternal(). -/
def RefCountState.decRefInternal (st : RefCountState) (d : DeviceId) :
    RefCountState :=
  if d.isSubDevice then
    { st with internalRefCount := dropAt st.internalRefCount d.rootDevice }
  else
    { st with internalRefCount := dropAt st.internalRefCount d }

/-- Modelled from the spec: the child structure of a device for the
Device::getDeviceById lookup (device implementation not under src/; spec
section 4.2, device lookup).  A node is its ordered list of sub-device
children. -/
inductive DeviceNode where
  | mk : List DeviceNode → DeviceNode

/-- The ordered children of a device. -/
def DeviceNode.subdevices : DeviceNode → List DeviceNode
  | DeviceNode.mk cs => cs

/-- getNumSubDevices: the number of immediate children. -/
def DeviceNode.getNumSubDevices (d : DeviceNode) : Nat :=
  d.subdevices.length

/-- getNumAvailableDevices: 1 for a leaf, else the number of children. -/
def DeviceNode.getNumAvailableDevices (d : DeviceNode) : Nat :=
  if d.getNumSubDevices = 0 then 1 else d.getNumSubDevices

/-- Modelled from the spec: getDeviceById(i) returns the device itself for
i = 0 on a childless device, the i-th child when i is within range on a
device with children, and an out-of-range error (none) otherwise. -/
def DeviceNode.getDeviceById (d : DeviceNode) (i : Nat) : Option DeviceNode :=
  if i < d.getNumAvailableDevices then
    if d.getNumSubDevices = 0 then some d else d.subdevices.get? i
  else
    none

/-- Modelled from the spec: ordered sub-device creation during root-device
creation (Device::create and SubDevice allocation code not under src/; spec
section 4.2, root creation and its atomicity rule).  allocOk k tells
whether the k-th sub-device obtains its required resources.  From index k,
create m sub-devices in order; on the first failure return none together
with the already-created siblings that creation tears down, in creation
order. -/
def createSubDevicesGo (allocOk : Nat → Bool) :
    Nat → Nat → Option (List Nat) × List Nat
  | _, 0 => (some [], [])
  | k, m + 1 =>
    if allocOk k then
      match createSubDevicesGo allocOk (k + 1) m with
      | (some rest, _) => (some (k :: rest), [])
      | (none, torn) => (none, k :: torn)
    else
      (none, [])

/-- The root device tree observable after a successful creation: the
ordered sub-device indices. -/
structure RootDeviceModel where
  subDeviceIndices : List Nat
deriving DecidableEq, Repr

/-- Modelled from the spec: Device::create for a root with n requested
sub-devices.  Returns the created root (none on failure) and the list of
already-created siblings torn down on the failure path. -/
def Device.create (allocOk : Nat → Bool) (n : Nat) :
    Option RootDeviceModel × List Nat :=
  match createSubDevicesGo allocOk 0 n with
  | (some ids, _) => (some { subDeviceIndices := ids }, [])
  | (none, torn) => (none, torn)

/-- Modelled from the spec: the observable fields of a device in the
engine-instancing topology (RootDevice and SubDevice implementation not
under src/; spec section 4.2, engine instancing). -/
structure EngDevice where
  deviceBitfield : Nat
  subDeviceIndex : Option Nat
  engineType : Nat
  engineInstanced : Bool
  children : List EngDevice

/-- getNumAvailableDevices over the instancing topology: 1 for a leaf,
else the number of children. -/
def EngDevice.getNumAvailableDevices (d : EngDevice) : Nat :=
  if d.children.length = 0 then 1 else d.children.length

/-- Modelled from the spec: when engine instancing is enabled and the
hardware reports more than one compute engine, a parent device creates one
engine-instanced leaf per compute engine; leaf j shares the parent
deviceBitfield and subDeviceIndex, carries engine type base + j and
engineInstanced = true, and has no children.  Otherwise the parent is left
unchanged. -/
def addEngineInstancedSubDevices (instancingEnabled : Bool)
    (ccsCount baseEngineType : Nat) (d : EngDevice) : EngDevice :=
  if instancingEnabled ∧ 1 < ccsCount then
    { d with
      children := (List.range ccsCount).map (fun j =>
        { deviceBitfield := d.deviceBitfield
          subDeviceIndex := d.subDeviceIndex
          engineType := baseEngineType + j
          engineInstanced := true
          children := [] }) }
  else
    d

/-- Modelled from the spec: root-device creation for the instancing claim.
With at least two generic sub-devices, the root carries one generic
sub-device per index k, with singleton bitfield and subDeviceIndex k, each
extended with its engine-instanced leaves; with no generic sub-devices the
root itself is extended with the leaves. -/
def createRootTopology (instancingEnabled : Bool)
    (ccsCount baseEngineType genericSubDeviceCount : Nat) : EngDevice :=
  if 2 ≤ genericSubDeviceCount then
    { deviceBitfield := 2 ^ genericSubDeviceCount - 1
      subDeviceIndex := none
      engineType := 0
      engineInstanced := false
      children := (List.range genericSubDeviceCount).map (fun k =>
        addEngineInstancedSubDevices instancingEnabled ccsCount
          baseEngineType
          { deviceBitfield := 2 ^ k
            subDeviceIndex := some k
            engineType := 0
            engineInstanced := false
            children := [] }) }
  else
    addEngineInstancedSubDevices instancingEnabled ccsCount baseEngineType
      { deviceBitfield := 1
        subDeviceIndex := none
        engineType := 0
        engineInstanced := false
        children := [] }

/-- The engine usage classes (EngineUsage). -/
inductive EngineUsage where
  | Regular
  | Internal
  | LowPriority
deriving DecidableEq, Repr

/-- Modelled from the spec: the os-context state relevant to the deferred
initialization policy (shared/source/os_interface/os_context.cpp not under
src/; spec section 4.1 and the DeferredOsContextCreationTests).  The
initializeContextCalled counter instruments the underlying hardware
context creation, as the MyOsContext test double does. -/
structure OsContext where
  engineUsage : EngineUsage
  contextInitialized : Bool
  initializeContextCalled : Nat
deriving DecidableEq, Repr

/-- Modelled from the spec: the context-initialization policy.  Internal
contexts and the default engine of the device are always immediate; any
other regular engine is immediate exactly when the global defer flag is
off. -/
def OsContext.isImmediateContextInitializationEnabled (ctx : OsContext)
    (deferFlag : Bool) (isDefaultEngine : Bool) : Bool :=
  if ctx.engineUsage = EngineUsage.Internal then true
  else if isDefaultEngine then true
  else !deferFlag

/-- Modelled from the spec: ensureContextInitialized is a no-op on an
already-initialized context; otherwise it performs the hardware context
creation once and marks the context initialized. -/
def OsContext.ensureContextInitialized (ctx : OsContext) : OsContext :=
  if ctx.contextInitialized then ctx
  else
    { ctx with
      contextInitialized := true
      initializeContextCalled := ctx.initializeContextCalled + 1 }

/-- Concrete queue state for the C1 witness: full first buffer in use, the
second buffer carrying flush stamp 7. -/
def c1WitnessState : CommandQueueState :=
  { buffers :=
      { bufferFirst := some { allocationId := 0, underlyingBuffer := [1, 2] }
        bufferSecond := some { allocationId := 1, underlyingBuffer := [3, 4] }
        flushIdFirst := 0
        flushIdSecond := 7
        bufferUse := BUFFER_ALLOCATION.FIRST }
    commandStream :=
      { graphicsAllocation :=
          some { allocationId := 0, underlyingBuffer := [1, 2] }
        maxAvailableSize := 4
        sizeUsed := 4 } }

/-- Number of occurrences of an allocation in a free log. -/
def countAlloc (a : GraphicsAllocation) (l : List GraphicsAllocation) :
    Nat :=
  (l.filter (fun x => x = a)).length

/-- Concrete manager for the C10 witness: two distinct allocations. -/
def c10WitnessCbm : CommandBufferManager :=
  { bufferFirst := some { allocationId := 0, underlyingBuffer := [] }
    bufferSecond := some { allocationId := 1, underlyingBuffer := [] }
    flushIdFirst := 3
    flushIdSecond := 0
    bufferUse := BUFFER_ALLOCATION.FIRST }

/-- Zero-valued counter state for the C3 witness. -/
def c3St : RefCountState :=
  { apiRefCount := fun _ => 0, internalRefCount := fun _ => 0 }

/-- Counter state for the C8 witness, with every internal count 1 so that
the decrement is meaningful. -/
def c8St : RefCountState :=
  { apiRefCount := fun _ => 0, internalRefCount := fun _ => 1 }

/-- Concrete generic sub-device for the C5 witness: sub-device 1 of three,
carrying its two engine-instanced leaves for base engine type 9. -/
def c5WitnessChild : EngDevice :=
  { deviceBitfield := 2
    subDeviceIndex := some 1
    engineType := 0
    engineInstanced := false
    children :=
      [{ deviceBitfield := 2, subDeviceIndex := some 1, engineType := 9,
         engineInstanced := true, children := [] },
       { deviceBitfield := 2, subDeviceIndex := some 1, engineType := 10,
         engineInstanced := true, children := [] }] }

/-- Changing only the buffer in use leaves both recorded flush ids as they
were. -/
theorem flushId_setBufferUse (cbm : CommandBufferManager)
    (u b : BUFFER_ALLOCATION) :
    ({ cbm with bufferUse := u } : CommandBufferManager).flushId b
      = cbm.flushId b := by
  cases b <;> rfl

/-- Changing only the buffer in use leaves both slots as they were. -/
theorem buffers_setBufferUse (cbm : CommandBufferManager)
    (u b : BUFFER_ALLOCATION) :
    ({ cbm with bufferUse := u } : CommandBufferManager).buffers b
      = cbm.buffers b := by
  cases b <;> rfl

/-- switchBuffers toggles the buffer in use and changes nothing else in
the manager state. -/
theorem switchBuffers_fst (cbm : CommandBufferManager) :
    cbm.switchBuffers.1
      = { cbm with bufferUse := otherBuffer cbm.bufferUse } := by
  unfold CommandBufferManager.switchBuffers
  dsimp only
  split <;> rfl

/-- The wait calls issued by switchBuffers: exactly one wait carrying the
recorded flush id of the newly active buffer when that id is non-zero, and
none otherwise. -/
theorem switchBuffers_snd (cbm : CommandBufferManager) :
    cbm.switchBuffers.2
      = (if cbm.flushId (otherBuffer cbm.bufferUse) ≠ 0
         then [cbm.flushId (otherBuffer cbm.bufferUse)] else []) := by
  unfold CommandBufferManager.switchBuffers
  simp only [flushId_setBufferUse]
  split <;> simp_all [flushId_setBufferUse]

/-- C1: when the active buffer has less remaining capacity than the
requested size, reserveLinearStreamSize toggles the active buffer, issues
exactly one wait-for-flush-stamp call with the newly active buffer's
recorded flush stamp when that stamp is non-zero and no wait call when it
is zero, and leaves the write cursor at the start of the newly active
buffer; when the remaining capacity suffices, the state is unchanged and
no wait call occurs. -/
theorem claimC1_reserveLinearStreamSize (q : CommandQueueState)
    (dq size : Nat) :
    (q.commandStream.getAvailableSpace < size →
      (CommandQueueImp.reserveLinearStreamSize q dq size).1.buffers.bufferUse
          = otherBuffer q.buffers.bufferUse ∧
      (CommandQueueImp.reserveLinearStreamSize q dq size).2
          = (if q.buffers.flushId (otherBuffer q.buffers.bufferUse) ≠ 0
             then [q.buffers.flushId (otherBuffer q.buffers.bufferUse)]
             else []) ∧
      (CommandQueueImp.reserveLinearStreamSize q dq
          size).1.commandStream.sizeUsed = 0 ∧
      (CommandQueueImp.reserveLinearStreamSize q dq
          size).1.commandStream.graphicsAllocation
          = q.buffers.buffers (otherBuffer q.buffers.bufferUse)) ∧
    (¬ q.commandStream.getAvailableSpace < size →
      CommandQueueImp.reserveLinearStreamSize q dq size = (q, [])) := by
  constructor
  · intro h
    simp only [CommandQueueImp.reserveLinearStreamSize, if_pos h]
    refine ⟨?_, ?_, ?_, ?_⟩
    · simp [switchBuffers_fst]
    · simp [switchBuffers_snd]
    · rfl
    · simp [switchBuffers_fst, CommandBufferManager.getCurrentBufferAllocation,
        LinearStream.replaceBuffer, LinearStream.replaceGraphicsAllocation,
        buffers_setBufferUse]
  · intro h
    simp only [CommandQueueImp.reserveLinearStreamSize, if_neg h]

/-- Witness for C1 at a concrete full buffer. -/
theorem claimC1_witness :
    c1WitnessState.commandStream.getAvailableSpace < 1 ∧
    ((CommandQueueImp.reserveLinearStreamSize c1WitnessState 16
        1).1.buffers.bufferUse
        = otherBuffer c1WitnessState.buffers.bufferUse ∧
      (CommandQueueImp.reserveLinearStreamSize c1WitnessState 16 1).2
        = (if c1WitnessState.buffers.flushId
              (otherBuffer c1WitnessState.buffers.bufferUse) ≠ 0
           then [c1WitnessState.buffers.flushId
              (otherBuffer c1WitnessState.buffers.bufferUse)]
           else []) ∧
      (CommandQueueImp.reserveLinearStreamSize c1WitnessState 16
          1).1.commandStream.sizeUsed = 0 ∧
      (CommandQueueImp.reserveLinearStreamSize c1WitnessState 16
          1).1.commandStream.graphicsAllocation
        = c1WitnessState.buffers.buffers
            (otherBuffer c1WitnessState.buffers.bufferUse)) :=
  ⟨by decide,
   (claimC1_reserveLinearStreamSize c1WitnessState 16 1).1 (by decide)⟩

/-- C7: synchronize (by polling for the task count) returns the not-ready
result exactly when the completion counter read after the wait is strictly
below the task count captured at the start of the call, and success
otherwise; the infinite timeout value disables the timeout of the wait
call. -/
theorem claimC7_synchronize (taskCount timeout tagAfterWait : Nat) :
    ((CommandQueueImp.synchronizeByPollingForTaskCount taskCount timeout
        tagAfterWait).1 = ZeResult.ZE_RESULT_NOT_READY ↔
      tagAfterWait < taskCount) ∧
    ((CommandQueueImp.synchronizeByPollingForTaskCount taskCount timeout
        tagAfterWait).1 = ZeResult.ZE_RESULT_SUCCESS ↔
      ¬ tagAfterWait < taskCount) ∧
    (timeout = UINT64_MAX →
      (CommandQueueImp.synchronizeByPollingForTaskCount taskCount timeout
        tagAfterWait).2.enableTimeout = false) ∧
    (timeout ≠ UINT64_MAX →
      (CommandQueueImp.synchronizeByPollingForTaskCount taskCount timeout
        tagAfterWait).2.enableTimeout = true) := by
  by_cases h : tagAfterWait < taskCount <;>
    by_cases ht : timeout = UINT64_MAX <;>
      simp [CommandQueueImp.synchronizeByPollingForTaskCount, h, ht]

/-- Witness for C7 at a concrete lagging counter and infinite timeout. -/
theorem claimC7_witness :
    UINT64_MAX = UINT64_MAX ∧
    ((CommandQueueImp.synchronizeByPollingForTaskCount 5 UINT64_MAX
        3).1 = ZeResult.ZE_RESULT_NOT_READY ↔ (3 : Nat) < 5) ∧
    (CommandQueueImp.synchronizeByPollingForTaskCount 5 UINT64_MAX
        3).2.enableTimeout = false :=
  ⟨rfl, (claimC7_synchronize 5 UINT64_MAX 3).1,
   (claimC7_synchronize 5 UINT64_MAX 3).2.2.1 rfl⟩

/-- C2: initialization of the command-buffer manager requests two
allocations of the same command-buffer type and of the same size, namely
the requested size rounded up to the 64k allocation granularity; if either
allocation fails it returns the out-of-device-memory result and the
failure-path teardown (CommandQueue::create destroys the partially built
queue, whose destructor — modelled from the spec, cmdqueue_imp.h not being
under src/ — runs the buffer-manager destroy) frees exactly the
allocations that were obtained; on success both recorded flush stamps are
set to zero and both buffers are zero-filled. -/
theorem claimC2_initialize_rounds_allocates_and_unwinds
    (cbm : CommandBufferManager) (sizeRequested : Nat)
    (r1 r2 : Option GraphicsAllocation) :
    ( CommandBufferManager.initialize cbm sizeRequested r1 r2).2.2
        = [{ size := alignUp sizeRequested pageSize64k,
             allocationType := AllocationType.COMMAND_BUFFER },
           { size := alignUp sizeRequested pageSize64k,
             allocationType := AllocationType.COMMAND_BUFFER }] ∧
    (sizeRequested ≤ alignUp sizeRequested pageSize64k ∧
      alignUp sizeRequested pageSize64k % pageSize64k = 0 ∧
      alignUp sizeRequested pageSize64k < sizeRequested + pageSize64k) ∧
    (r1 = none ∨ r2 = none →
      ( CommandBufferManager.initialize cbm sizeRequested r1 r2).1
          = ZeResult.ZE_RESULT_ERROR_OUT_OF_DEVICE_MEMORY ∧
      ( CommandBufferManager.initialize cbm sizeRequested r1
          r2).2.1.destroy.2 = r1.toList ++ r2.toList) ∧
    (r1 ≠ none → r2 ≠ none →
      ( CommandBufferManager.initialize cbm sizeRequested r1 r2).1
          = ZeResult.ZE_RESULT_SUCCESS ∧
      ( CommandBufferManager.initialize cbm sizeRequested r1
          r2).2.1.flushIdFirst = 0 ∧
      ( CommandBufferManager.initialize cbm sizeRequested r1
          r2).2.1.flushIdSecond = 0 ∧
      ( CommandBufferManager.initialize cbm sizeRequested r1
          r2).2.1.bufferFirst.isSome ∧
      ( CommandBufferManager.initialize cbm sizeRequested r1
          r2).2.1.bufferSecond.isSome ∧
      (∀ a, ( CommandBufferManager.initialize cbm sizeRequested r1
          r2).2.1.bufferFirst = some a → ∀ x ∈ a.underlyingBuffer, x = 0) ∧
      (∀ a, ( CommandBufferManager.initialize cbm sizeRequested r1
          r2).2.1.bufferSecond = some a → ∀ x ∈ a.underlyingBuffer, x = 0)) := by
  refine ⟨?_, ?_, ?_, ?_⟩
  · unfold CommandBufferManager.initialize
    dsimp only
    split <;> rfl
  · unfold alignUp pageSize64k
    omega
  · intro h
    unfold CommandBufferManager.initialize CommandBufferManager.destroy
    dsimp only
    rw [if_pos h]
    exact ⟨rfl, rfl⟩
  · intro h1 h2
    obtain ⟨a1, ha1⟩ := Option.ne_none_iff_exists'.mp h1
    obtain ⟨a2, ha2⟩ := Option.ne_none_iff_exists'.mp h2
    subst ha1
    subst ha2
    refine ⟨?_, ?_, ?_, ?_, ?_, ?_, ?_⟩ <;>
      simp [ CommandBufferManager.initialize, memset0]

/-- Witness for C2 with the first allocation obtained and the second one
failing. -/
theorem claimC2_witness :
    ((some { allocationId := 0, underlyingBuffer := [5] } :
        Option GraphicsAllocation) = none ∨
      (none : Option GraphicsAllocation) = none) ∧
    (( CommandBufferManager.initialize
        { bufferFirst := none, bufferSecond := none, flushIdFirst := 0,
          flushIdSecond := 0, bufferUse := BUFFER_ALLOCATION.FIRST }
        100 (some { allocationId := 0, underlyingBuffer := [5] }) none).1
        = ZeResult.ZE_RESULT_ERROR_OUT_OF_DEVICE_MEMORY ∧
      ( CommandBufferManager.initialize
        { bufferFirst := none, bufferSecond := none, flushIdFirst := 0,
          flushIdSecond := 0, bufferUse := BUFFER_ALLOCATION.FIRST }
        100 (some { allocationId := 0, underlyingBuffer := [5] })
        none).2.1.destroy.2
        = (some { allocationId := 0, underlyingBuffer := [5] } :
            Option GraphicsAllocation).toList ++
          (none : Option GraphicsAllocation).toList) :=
  ⟨Or.inr rfl,
   (claimC2_initialize_rounds_allocates_and_unwinds
      { bufferFirst := none, bufferSecond := none, flushIdFirst := 0,
        flushIdSecond := 0, bufferUse := BUFFER_ALLOCATION.FIRST }
      100 (some { allocationId := 0, underlyingBuffer := [5] })
      none).2.2.1 (Or.inr rfl)⟩

/-- The count is additive over concatenated logs. -/
theorem countAlloc_append (a : GraphicsAllocation)
    (l1 l2 : List GraphicsAllocation) :
    countAlloc a (l1 ++ l2) = countAlloc a l1 + countAlloc a l2 := by
  simp [countAlloc, List.filter_append]

/-- The count over the free log of one optional slot. -/
theorem countAlloc_toList (a : GraphicsAllocation)
    (o : Option GraphicsAllocation) :
    countAlloc a o.toList = if o = some a then 1 else 0 := by
  cases o with
  | none => simp [countAlloc]
  | some b => by_cases hb : b = a <;> simp [countAlloc, hb]

/-- One buffer-manager operation conserves allocations: what it frees plus
what stays in the slots is what the slots held before. -/
theorem step_slotCount (cbm : CommandBufferManager) (op : CbmOp)
    (a : GraphicsAllocation) :
    countAlloc a (cbm.step op).2 + (cbm.step op).1.slotCount a
      = cbm.slotCount a := by
  cases op with
  | opSwitchBuffers =>
    simp [CommandBufferManager.step, countAlloc, switchBuffers_fst,
      CommandBufferManager.slotCount]
  | opSetCurrentFlushStamp s =>
    cases h : cbm.bufferUse <;>
      simp [CommandBufferManager.step,
        CommandBufferManager.setCurrentFlushStamp, h, countAlloc,
        CommandBufferManager.slotCount]
  | opDestroy =>
    simp only [CommandBufferManager.step, CommandBufferManager.destroy,
      countAlloc_append, countAlloc_toList, CommandBufferManager.slotCount]
    split_ifs <;> simp_all

/-- Allocation conservation over a whole operation sequence. -/
theorem run_slotCount (ops : List CbmOp) :
    ∀ (cbm : CommandBufferManager) (a : GraphicsAllocation),
      countAlloc a (cbm.run ops).2 + (cbm.run ops).1.slotCount a
        = cbm.slotCount a := by
  induction ops with
  | nil => intro cbm a; simp [CommandBufferManager.run, countAlloc]
  | cons op ops ih =>
    intro cbm a
    simp only [CommandBufferManager.run, countAlloc_append]
    have h1 := step_slotCount cbm op a
    have h2 := ih (cbm.step op).1 a
    omega

/-- C10: destroy is idempotent — after one call both buffer slots are
null and a second call frees nothing — and over any operation sequence an
allocation held by at most one slot is passed to freeGraphicsMemory at
most once. -/
theorem claimC10_destroy_idempotent (cbm : CommandBufferManager) :
    cbm.destroy.1.bufferFirst = none ∧
    cbm.destroy.1.bufferSecond = none ∧
    cbm.destroy.1.destroy.2 = [] ∧
    (∀ (ops : List CbmOp) (a : GraphicsAllocation),
      cbm.slotCount a ≤ 1 → countAlloc a (cbm.run ops).2 ≤ 1) := by
  refine ⟨rfl, rfl, rfl, ?_⟩
  intro ops a h
  have := run_slotCount ops cbm a
  omega

/-- Witness for C10: a double destroy with a switch in between frees the
first allocation only once. -/
theorem claimC10_witness :
    c10WitnessCbm.slotCount { allocationId := 0, underlyingBuffer := [] }
        ≤ 1 ∧
    countAlloc { allocationId := 0, underlyingBuffer := [] }
      (c10WitnessCbm.run
        [CbmOp.opDestroy, CbmOp.opSwitchBuffers, CbmOp.opDestroy]).2 ≤ 1 :=
  ⟨by decide,
   (claimC10_destroy_idempotent c10WitnessCbm).2.2.2
      [CbmOp.opDestroy, CbmOp.opSwitchBuffers, CbmOp.opDestroy]
      { allocationId := 0, underlyingBuffer := [] } (by decide)⟩

/-- A sub-device is a different instance than its root device. -/
theorem subDevice_ne_rootDevice (d : DeviceId) (h : d.isSubDevice = true) :
    d ≠ d.rootDevice := by
  intro he
  have h2 := congrArg DeviceId.subDeviceIndex he
  simp [DeviceId.rootDevice] at h2
  simp [DeviceId.isSubDevice, h2] at h

/-- C3: retainApi on a sub-device S increments the apiRefCount of S, the
internalRefCount of S, and the internalRefCount of the root of S, leaves
the apiRefCount of the root unchanged, leaves every counter of every other
device (in particular of any sibling root device) unchanged, and
releaseApi exactly inverts it, restoring every counter in the system. -/
theorem claimC3_retainApi_releaseApi (st : RefCountState) (S : DeviceId)
    (hS : S.isSubDevice = true) :
    (st.retainApi S).apiRefCount S = st.apiRefCount S + 1 ∧
    (st.retainApi S).internalRefCount S = st.internalRefCount S + 1 ∧
    (st.retainApi S).internalRefCount S.rootDevice
      = st.internalRefCount S.rootDevice + 1 ∧
    (st.retainApi S).apiRefCount S.rootDevice
      = st.apiRefCount S.rootDevice ∧
    (∀ d, d ≠ S → d ≠ S.rootDevice →
      (st.retainApi S).apiRefCount d = st.apiRefCount d ∧
      (st.retainApi S).internalRefCount d = st.internalRefCount d) ∧
    (∀ d, ((st.retainApi S).releaseApi S).apiRefCount d = st.apiRefCount d ∧
      ((st.retainApi S).releaseApi S).internalRefCount d
        = st.internalRefCount d) := by
  have hne := subDevice_ne_rootDevice S hS
  refine ⟨?_, ?_, ?_, ?_, ?_, ?_⟩
  · simp [RefCountState.retainApi, bumpAt, hS, hne, Ne.symm hne]
  · simp [RefCountState.retainApi, bumpAt, hS, hne, Ne.symm hne]
  · simp [RefCountState.retainApi, bumpAt, hS, hne, Ne.symm hne]
  · simp [RefCountState.retainApi, bumpAt, hS, hne, Ne.symm hne]
  · intro d hd1 hd2
    constructor <;>
      simp [RefCountState.retainApi, bumpAt, hS, hd1, hd2]
  · intro d
    constructor <;>
      by_cases hd1 : d = S <;> by_cases hd2 : d = S.rootDevice <;>
        simp_all [RefCountState.retainApi, RefCountState.releaseApi,
          bumpAt, dropAt, hS, hne, Ne.symm hne]

/-- Witness for C3 on a concrete sub-device 1 of root 0. -/
theorem claimC3_witness :
    (DeviceId.mk 0 (some 1)).isSubDevice = true ∧
    (c3St.retainApi (DeviceId.mk 0 (some 1))).internalRefCount
        (DeviceId.mk 0 (some 1)).rootDevice
      = c3St.internalRefCount (DeviceId.mk 0 (some 1)).rootDevice + 1 :=
  ⟨rfl, (claimC3_retainApi_releaseApi c3St (DeviceId.mk 0 (some 1))
    rfl).2.2.1⟩

/-- C8: incRefInternal on a sub-device S delegates to the root — it
increments the internalRefCount of the root of S by one and leaves the own
internalRefCount of S unchanged — and decRefInternal symmetrically
decrements the internalRefCount of the root while leaving the own counter
of S unchanged. -/
theorem claimC8_incDecRefInternal (st : RefCountState) (S : DeviceId)
    (hS : S.isSubDevice = true) :
    (st.incRefInternal S).internalRefCount S.rootDevice
      = st.internalRefCount S.rootDevice + 1 ∧
    (st.incRefInternal S).internalRefCount S = st.internalRefCount S ∧
    (st.decRefInternal S).internalRefCount S = st.internalRefCount S ∧
    (0 < st.internalRefCount S.rootDevice →
      (st.decRefInternal S).internalRefCount S.rootDevice + 1
        = st.internalRefCount S.rootDevice) := by
  have hne := subDevice_ne_rootDevice S hS
  refine ⟨?_, ?_, ?_, ?_⟩
  · simp [RefCountState.incRefInternal, bumpAt, hS]
  · simp [RefCountState.incRefInternal, bumpAt, hS, hne]
  · simp [RefCountState.decRefInternal, dropAt, hS, hne]
  · intro h
    simp [RefCountState.decRefInternal, dropAt, hS]
    omega

/-- Witness for C8 on a concrete sub-device 0 of root 2. -/
theorem claimC8_witness :
    (DeviceId.mk 2 (some 0)).isSubDevice = true ∧
    0 < c8St.internalRefCount (DeviceId.mk 2 (some 0)).rootDevice ∧
    (c8St.decRefInternal (DeviceId.mk 2 (some 0))).internalRefCount
        (DeviceId.mk 2 (some 0)).rootDevice + 1
      = c8St.internalRefCount (DeviceId.mk 2 (some 0)).rootDevice :=
  ⟨rfl, by decide,
   (claimC8_incDecRefInternal c8St (DeviceId.mk 2 (some 0)) rfl).2.2.2
     (by decide)⟩

/-- C9: getDeviceById 0 on a childless device returns the device itself;
on a device with children it returns the i-th child for every in-range i
and fails with the out-of-range error for every index past the children. -/
theorem claimC9_getDeviceById (d : DeviceNode) (i : Nat) :
    (d.getNumSubDevices = 0 → d.getDeviceById 0 = some d) ∧
    (i < d.getNumSubDevices →
      d.getDeviceById i = d.subdevices.get? i ∧
      (d.subdevices.get? i).isSome) ∧
    (0 < d.getNumSubDevices → d.getNumSubDevices ≤ i →
      d.getDeviceById i = none) := by
  refine ⟨?_, ?_, ?_⟩
  · intro h
    simp [DeviceNode.getDeviceById, DeviceNode.getNumAvailableDevices, h]
  · intro h
    have h0 : d.getNumSubDevices ≠ 0 := by omega
    have hav : i < d.getNumAvailableDevices := by
      simpa [DeviceNode.getNumAvailableDevices, h0] using h
    have hl : i < d.subdevices.length := h
    refine ⟨?_, ?_⟩
    · simp [DeviceNode.getDeviceById, hav, h0]
    · rw [List.get?_eq_get hl]
      simp
  · intro h1 h2
    have h0 : d.getNumSubDevices ≠ 0 := by omega
    have hnav : ¬ i < d.getNumAvailableDevices := by
      simp [DeviceNode.getNumAvailableDevices, h0]
      omega
    simp [DeviceNode.getDeviceById, hnav]

/-- Witness for C9 on a two-child device at index 1. -/
theorem claimC9_witness :
    1 < (DeviceNode.mk [DeviceNode.mk [], DeviceNode.mk []]).getNumSubDevices ∧
    ((DeviceNode.mk [DeviceNode.mk [], DeviceNode.mk []]).getDeviceById 1
        = (DeviceNode.mk [DeviceNode.mk [],
            DeviceNode.mk []]).subdevices.get? 1 ∧
      ((DeviceNode.mk [DeviceNode.mk [],
          DeviceNode.mk []]).subdevices.get? 1).isSome) :=
  ⟨by decide,
   (claimC9_getDeviceById
      (DeviceNode.mk [DeviceNode.mk [], DeviceNode.mk []]) 1).2.1
     (by decide)⟩

/-- C6: the context-initialization policy is immediate for every
Internal-usage context and for the default engine of the device under both
settings of the defer flag; a Regular-usage non-default engine is
immediate exactly when the defer flag is disabled; and two calls of
ensureContextInitialized on an uninitialized context perform the
underlying hardware context creation exactly once. -/
theorem claimC6_deferredContextPolicy (ctx : OsContext)
    (deferFlag isDefaultEngine : Bool) :
    (ctx.engineUsage = EngineUsage.Internal →
      ctx.isImmediateContextInitializationEnabled deferFlag isDefaultEngine
        = true) ∧
    (isDefaultEngine = true →
      ctx.isImmediateContextInitializationEnabled deferFlag isDefaultEngine
        = true) ∧
    (ctx.engineUsage = EngineUsage.Regular → isDefaultEngine = false →
      (ctx.isImmediateContextInitializationEnabled deferFlag isDefaultEngine
          = true ↔ deferFlag = false)) ∧
    (ctx.contextInitialized = false →
      ctx.ensureContextInitialized.ensureContextInitialized.initializeContextCalled
        = ctx.initializeContextCalled + 1 ∧
      ctx.ensureContextInitialized.ensureContextInitialized.contextInitialized
        = true) := by
  refine ⟨?_, ?_, ?_, ?_⟩
  · intro h
    simp [OsContext.isImmediateContextInitializationEnabled, h]
  · intro h
    simp [OsContext.isImmediateContextInitializationEnabled, h]
  · intro h1 h2
    cases deferFlag <;>
      simp [OsContext.isImmediateContextInitializationEnabled, h1, h2]
  · intro h
    simp [OsContext.ensureContextInitialized, h]

/-- Witness for C6 on a fresh regular context. -/
theorem claimC6_witness :
    (OsContext.mk EngineUsage.Regular false 0).contextInitialized = false ∧
    ((OsContext.mk EngineUsage.Regular false
        0).ensureContextInitialized.ensureContextInitialized.initializeContextCalled
      = (OsContext.mk EngineUsage.Regular false 0).initializeContextCalled
          + 1 ∧
      (OsContext.mk EngineUsage.Regular false
        0).ensureContextInitialized.ensureContextInitialized.contextInitialized
        = true) :=
  ⟨rfl, (claimC6_deferredContextPolicy
    (OsContext.mk EngineUsage.Regular false 0) true false).2.2.2 rfl⟩

/-- Unfolding equation: creating zero sub-devices succeeds vacuously. -/
theorem createSubDevicesGo_zero (allocOk : Nat → Bool) (k : Nat) :
    createSubDevicesGo allocOk k 0 = (some [], []) := rfl

/-- Unfolding equation: immediate allocation failure. -/
theorem createSubDevicesGo_succ_false (allocOk : Nat → Bool) (k m : Nat)
    (h : allocOk k = false) :
    createSubDevicesGo allocOk k (m + 1) = (none, []) := by
  unfold createSubDevicesGo
  simp [h]

/-- Unfolding equation: successful head allocation, successful rest. -/
theorem createSubDevicesGo_succ_some (allocOk : Nat → Bool)
    (k m : Nat) (rest t : List Nat) (h : allocOk k = true)
    (hgo : createSubDevicesGo allocOk (k + 1) m = (some rest, t)) :
    createSubDevicesGo allocOk k (m + 1) = (some (k :: rest), []) := by
  unfold createSubDevicesGo
  simp [h, hgo]

/-- Unfolding equation: successful head allocation, failing rest — the
head joins the teardown list. -/
theorem createSubDevicesGo_succ_none (allocOk : Nat → Bool)
    (k m : Nat) (t : List Nat) (h : allocOk k = true)
    (hgo : createSubDevicesGo allocOk (k + 1) m = (none, t)) :
    createSubDevicesGo allocOk k (m + 1) = (none, k :: t) := by
  unfold createSubDevicesGo
  simp [h, hgo]

/-- If some sub-device in the creation range fails to allocate, ordered
creation reports failure. -/
theorem createSubDevicesGo_none (allocOk : Nat → Bool) :
    ∀ (m k j : Nat), j < m → allocOk (k + j) = false →
      (createSubDevicesGo allocOk k m).1 = none := by
  intro m
  induction m with
  | zero => intro k j hj _; omega
  | succ m ih =>
    intro k j hj hf
    by_cases hk : allocOk k
    · have hnone : (createSubDevicesGo allocOk (k + 1) m).1 = none := by
        cases j with
        | zero =>
          rw [Nat.add_zero] at hf
          rw [hf] at hk
          cases hk
        | succ i =>
          refine ih (k + 1) i (by omega) ?_
          have he : k + 1 + i = k + (i + 1) := by omega
          rw [he]
          exact hf
      rcases hgo : createSubDevicesGo allocOk (k + 1) m with ⟨res, t⟩
      rw [hgo] at hnone
      simp only at hnone
      subst hnone
      rw [createSubDevicesGo_succ_none allocOk k m t hk hgo]
    · rw [createSubDevicesGo_succ_false allocOk k m
        (Bool.not_eq_true _ ▸ by simpa using hk)]

/-- When ordered creation fails, its teardown list is exactly the run of
successfully created sub-devices before the first failure. -/
theorem createSubDevicesGo_torn (allocOk : Nat → Bool) :
    ∀ (m k : Nat), (createSubDevicesGo allocOk k m).1 = none →
      ∃ j, j < m ∧
        (createSubDevicesGo allocOk k m).2 = List.range' k j ∧
        (∀ i, i < j → allocOk (k + i) = true) ∧
        allocOk (k + j) = false := by
  intro m
  induction m with
  | zero => intro k h; simp [createSubDevicesGo_zero] at h
  | succ m ih =>
    intro k h
    by_cases hk : allocOk k
    · rcases hgo : createSubDevicesGo allocOk (k + 1) m with ⟨res, t⟩
      cases res with
      | some rest =>
        rw [createSubDevicesGo_succ_some allocOk k m rest t hk hgo] at h
        simp at h
      | none =>
        have hn : (createSubDevicesGo allocOk (k + 1) m).1 = none := by
          rw [hgo]
        obtain ⟨j, hj, htorn, hall, hfail⟩ := ih (k + 1) hn
        rw [hgo] at htorn
        simp only at htorn
        refine ⟨j + 1, by omega, ?_, ?_, ?_⟩
        · rw [createSubDevicesGo_succ_none allocOk k m t hk hgo]
          simp only
          rw [htorn, List.range'_succ]
        · intro i hi
          cases i with
          | zero => simpa using hk
          | succ i2 =>
            have he : k + (i2 + 1) = k + 1 + i2 := by omega
            rw [he]
            exact hall i2 (by omega)
        · have he : k + (j + 1) = k + 1 + j := by omega
          rw [he]
          exact hfail
    · refine ⟨0, by omega, ?_, ?_, ?_⟩
      · rw [createSubDevicesGo_succ_false allocOk k m
          (Bool.not_eq_true _ ▸ by simpa using hk)]
        simp [List.range']
      · intro i hi; omega
      · rw [Nat.add_zero]
        simpa using hk

/-- C4: if any of the n requested sub-devices fails to allocate its
required resources, Device::create for the root returns failure (none),
and the teardown covers exactly the successfully created earlier siblings
— no partial device tree remains observable. -/
theorem claimC4_createAtomicity (allocOk : Nat → Bool) (n k : Nat)
    (hk : k < n) (hf : allocOk k = false) :
    (Device.create allocOk n).1 = none ∧
    ∃ j, j < n ∧ (Device.create allocOk n).2 = List.range' 0 j ∧
      (∀ i, i < j → allocOk i = true) ∧ allocOk j = false := by
  have hnone : (createSubDevicesGo allocOk 0 n).1 = none := by
    refine createSubDevicesGo_none allocOk n 0 k hk ?_
    simpa using hf
  obtain ⟨j, hj, htorn, hall, hfail⟩ :=
    createSubDevicesGo_torn allocOk n 0 hnone
  rcases hgo : createSubDevicesGo allocOk 0 n with ⟨res, t⟩
  rw [hgo] at hnone htorn
  simp only at hnone htorn
  subst hnone
  refine ⟨by simp [Device.create, hgo], j, hj, ?_, ?_, ?_⟩
  · simp only [Device.create, hgo]
    exact htorn
  · intro i hi
    simpa using hall i hi
  · simpa using hfail

/-- Witness for C4: four requested sub-devices with allocation failing
from the third on. -/
theorem claimC4_witness :
    (2 : Nat) < 4 ∧ (fun i => decide (i < 2)) 2 = false ∧
    ((Device.create (fun i => decide (i < 2)) 4).1 = none ∧
      ∃ j, j < 4 ∧
        (Device.create (fun i => decide (i < 2)) 4).2 = List.range' 0 j ∧
        (∀ i, i < j → (fun i => decide (i < 2)) i = true) ∧
        (fun i => decide (i < 2)) j = false) :=
  ⟨by decide, by decide,
   claimC4_createAtomicity (fun i => decide (i < 2)) 4 2 (by decide)
     (by decide)⟩

/-- C5: with engine instancing enabled and a reported compute-engine count
C greater than one, every generic sub-device of the root (or the root
itself when there are no generic sub-devices) carries exactly C
engine-instanced leaves, leaf j sharing the parent deviceBitfield and
subDeviceIndex, with engine type base + j, engineInstanced true and a
getNumAvailableDevices of 1; with C equal to one, no instanced leaves are
created. -/
theorem claimC5_engineInstancing (C base G k : Nat) :
    (1 < C → 2 ≤ G → k < G → ∀ gd,
      (createRootTopology true C base G).children.get? k = some gd →
        gd.engineInstanced = false ∧
        gd.children.length = C ∧
        (∀ j, j < C → ∀ gc, gd.children.get? j = some gc →
          gc.deviceBitfield = gd.deviceBitfield ∧
          gc.subDeviceIndex = gd.subDeviceIndex ∧
          gc.engineType = base + j ∧
          gc.engineInstanced = true ∧
          gc.getNumAvailableDevices = 1)) ∧
    (1 < C → G < 2 →
      (createRootTopology true C base G).children.length = C ∧
      (∀ j, j < C → ∀ gc,
        (createRootTopology true C base G).children.get? j = some gc →
          gc.deviceBitfield
            = (createRootTopology true C base G).deviceBitfield ∧
          gc.subDeviceIndex = none ∧
          gc.engineType = base + j ∧
          gc.engineInstanced = true ∧
          gc.getNumAvailableDevices = 1)) ∧
    (C = 1 → 2 ≤ G → ∀ gd,
      (createRootTopology true C base G).children.get? k = some gd →
        gd.children = []) ∧
    (C = 1 → G < 2 → (createRootTopology true C base G).children = []) := by
  refine ⟨?_, ?_, ?_, ?_⟩
  · intro hC hG hk gd hgd
    rw [createRootTopology, if_pos hG] at hgd
    simp only [List.get?_map, List.get?_range hk, Option.map_some'] at hgd
    rw [addEngineInstancedSubDevices, if_pos (by simpa using hC)] at hgd
    obtain rfl := (Option.some.injEq _ _).mp hgd
    refine ⟨rfl, by simp, ?_⟩
    intro j hj gc hgc
    simp only [List.get?_map, List.get?_range hj, Option.map_some'] at hgc
    obtain rfl := (Option.some.injEq _ _).mp hgc
    exact ⟨rfl, rfl, rfl, rfl, rfl⟩
  · intro hC hG
    rw [createRootTopology, if_neg (by omega)]
    rw [addEngineInstancedSubDevices, if_pos (by simpa using hC)]
    refine ⟨by simp, ?_⟩
    intro j hj gc hgc
    simp only [List.get?_map, List.get?_range hj, Option.map_some'] at hgc
    obtain rfl := (Option.some.injEq _ _).mp hgc
    exact ⟨rfl, rfl, rfl, rfl, rfl⟩
  · intro hC hG gd hgd
    rw [createRootTopology, if_pos hG] at hgd
    simp only [List.get?_map] at hgd
    rcases hr : (List.range G).get? k with _ | k2
    · rw [hr] at hgd; cases hgd
    · rw [hr] at hgd
      simp only [Option.map_some'] at hgd
      rw [addEngineInstancedSubDevices, if_neg (by omega)] at hgd
      obtain rfl := (Option.some.injEq _ _).mp hgd
      rfl
  · intro hC hG
    rw [createRootTopology, if_neg (by omega)]
    rw [addEngineInstancedSubDevices, if_neg (by omega)]

/-- Witness for C5 with two compute engines, three generic sub-devices and
base engine type 9. -/
theorem claimC5_witness :
    (1 : Nat) < 2 ∧ (2 : Nat) ≤ 3 ∧ (1 : Nat) < 3 ∧
    (c5WitnessChild.engineInstanced = false ∧
      c5WitnessChild.children.length = 2 ∧
      (∀ j, j < 2 → ∀ gc, c5WitnessChild.children.get? j = some gc →
        gc.deviceBitfield = c5WitnessChild.deviceBitfield ∧
        gc.subDeviceIndex = c5WitnessChild.subDeviceIndex ∧
        gc.engineType = 9 + j ∧
        gc.engineInstanced = true ∧
        gc.getNumAvailableDevices = 1)) :=
  ⟨by decide, by decide, by decide,
   (claimC5_engineInstancing 2 9 3 1).1 (by decide) (by decide) (by decide)
     c5WitnessChild rfl⟩
